import Mathlib

/-!
# Verification of the `nanobot` OpenAI-compatible provider adapter

A shallow embedding of `src/nanobot/providers/openai_provider.py`
(`OpenAIProvider.__init__`, `OpenAIProvider.chat`,
`OpenAIProvider._parse_response`) together with the data holders of the
provider contract (`LLMResponse`, `ToolCallRequest`), and proofs of the
specified properties of request shaping, response normalization and
error conversion.

Python values appearing in request dictionaries are embedded as the
inductive type `PyVal`; Python `dict`s are embedded as ordered
association lists over `String` keys with Python assignment/update
semantics (`dictSet`, `dictUpdate`, lookup `dictGet`).  The external
collaborators — the vendor network client (`openai` SDK) and the JSON
decoder (`json.loads`) — are parameters of the embedded functions: the
network call is a function from the outbound keyword arguments to
either an exception message or a vendor response, and the decoder is a
function from strings to an optional decoded value.
-/

namespace Nanobot

/-- Embedded Python values (strings, ints, floats, bools, lists, dicts,
`None`) as they occur in request parameters, tool-call arguments and
decoded JSON. -/
inductive PyVal where
  | str (s : String) : PyVal
  | int (n : Int) : PyVal
  | float (q : Rat) : PyVal
  | bool (b : Bool) : PyVal
  | list (xs : List PyVal) : PyVal
  | dict (entries : List (String × PyVal)) : PyVal
  | none : PyVal

/-- A Python `dict` over string keys, embedded as an ordered association
list (Python dicts preserve insertion order). -/
abbrev PyDict := List (String × PyVal)

/-- Python `d[k] = v`: replace the value at an existing key in place,
otherwise append the new entry at the end. -/
def dictSet : PyDict → String → PyVal → PyDict
  | [], k, v => [(k, v)]
  | (k', v') :: rest, k, v =>
      if k' = k then (k, v) :: rest else (k', v') :: dictSet rest k v

/-- Python `d.update(e)`: assign every entry of `e` into `d`, in order. -/
def dictUpdate (d : PyDict) (e : PyDict) : PyDict :=
  e.foldl (fun acc p => dictSet acc p.1 p.2) d

/-- Python `d.get(k)` / `k in d`: the value at the first entry whose key
is `k`, if any. -/
def dictGet : PyDict → String → Option PyVal
  | [], _ => Option.none
  | (k', v) :: rest, k => if k' = k then some v else dictGet rest k

/-- Whether `pat` occurs as a contiguous run inside a character list
(the empty pattern occurs everywhere). -/
def hasSubstr (pat : List Char) : List Char → Bool
  | [] => pat.isEmpty
  | c :: rest => if pat.isPrefixOf (c :: rest) then true else hasSubstr pat rest

/-- Python `pat in s` on strings: `pat` occurs as a contiguous substring
of `s`. -/
def strIn (pat s : String) : Bool :=
  hasSubstr pat.data s.data

/-- Python `s.startswith(p)`. -/
def pyStartsWith (s p : String) : Bool :=
  p.data.isPrefixOf s.data

/-- Python `a or b` on strings (`a` is falsy exactly when it is the
empty string). -/
def pyOrStr (a b : String) : String :=
  if a = "" then b else a

/-- Python `x or b` where `x` is an optional string (`None` and `""` are
falsy). -/
def pyOptOrStr (x : Option String) (b : String) : String :=
  match x with
  | Option.none => b
  | some s => pyOrStr s b

/-- Modelled from the spec: `ToolCallRequest` (declared in the absent
`nanobot/providers/base.py`) is a plain data holder identifying one tool
invocation the model asked for: vendor-supplied correlation `id`, tool
`name`, and structured `arguments`. -/
structure ToolCallRequest where
  id : String
  name : String
  arguments : PyVal

/-- Modelled from the spec: `LLMResponse` (declared in the absent
`nanobot/providers/base.py`) is a plain data holder for a normalized LLM
reply: text `content`, ordered `tool_calls`, `finish_reason`, and a
token-`usage` mapping (empty when unavailable); `tool_calls` and `usage`
default to empty when a constructor omits them. -/
structure LLMResponse where
  content : String
  tool_calls : List ToolCallRequest := []
  finish_reason : String
  usage : List (String × Int) := []

/-! ## The vendor (OpenAI-compatible SDK) response shape

The fields of the SDK response object that `_parse_response` reads. -/

/-- The `function` part of a vendor tool call: a name and an arguments
payload (a JSON string, or already-structured data). -/
structure VendorFunction where
  name : String
  arguments : PyVal

/-- One vendor tool call: correlation id plus the called function. -/
structure VendorToolCall where
  id : String
  function : VendorFunction

/-- The `message` of a vendor choice: optional text content, optional
reasoning/thinking text, optional tool calls (absent attribute or `None`
embedded as `Option.none`). -/
structure VendorMessage where
  content : Option String
  reasoning_content : Option String
  tool_calls : Option (List VendorToolCall)

/-- One vendor choice: a message and an optional finish reason. -/
structure VendorChoice where
  message : VendorMessage
  finish_reason : Option String

/-- The vendor usage block with its three token counters. -/
structure VendorUsage where
  prompt_tokens : Int
  completion_tokens : Int
  total_tokens : Int

/-- A vendor chat-completion response: a list of choices and an optional
usage block. -/
structure VendorResponse where
  choices : List VendorChoice
  usage : Option VendorUsage

namespace OpenAIProvider

/-- The API-key resolution step of `OpenAIProvider.__init__`
(lines 30–33): if the configured key is truthy and starts with `"$"`,
look the remainder up in the environment, falling back to the literal
configured string when the variable is unset.  The environment is
embedded as a partial map from variable names to values. -/
def resolveApiKey (api_key : Option String) (env : String → Option String) :
    Option String :=
  match api_key with
  | Option.none => Option.none
  | some k =>
      if k = "" then some k
      else if pyStartsWith k "$" then some ((env (k.drop 1)).getD k)
      else some k

/-- The argument normalization inside `_parse_response`'s tool-call
loop: a string payload is decoded with `json.loads` (the `decode`
parameter); on decode failure the raw string is wrapped as
`{"raw": <original string>}`; a non-string payload is kept as is. -/
def normalizeArgs (decode : String → Option PyVal) : PyVal → PyVal
  | PyVal.str s =>
      match decode s with
      | some v => v
      | Option.none => PyVal.dict [("raw", PyVal.str s)]
  | v => v

/-- Embedding of `OpenAIProvider._parse_response` (lines 102–146): read the first
choice (raising `IndexError`, embedded as `Except.error`, when `choices`
is empty), extract content (empty string when missing), normalize each
tool call, default the finish reason to `"stop"`, and copy the usage
counters when a usage block is present. -/
def parse_response (decode : String → Option PyVal) (response : VendorResponse) :
    Except String LLMResponse :=
  match response.choices with
  | [] => Except.error "list index out of range"
  | choice :: _ =>
    let message := choice.message
    let content := pyOptOrStr message.content ""
    let tool_calls :=
      match message.tool_calls with
      | some tcs =>
          tcs.map (fun tc =>
            { id := tc.id
              name := tc.function.name
              arguments := normalizeArgs decode tc.function.arguments })
      | Option.none => []
    let usage :=
      match response.usage with
      | some u =>
          [("prompt_tokens", u.prompt_tokens),
           ("completion_tokens", u.completion_tokens),
           ("total_tokens", u.total_tokens)]
      | Option.none => []
    Except.ok
      { content := content
        tool_calls := tool_calls
        finish_reason := pyOptOrStr choice.finish_reason "stop"
        usage := usage }

/-- The base request dictionary of `chat` (lines 68–74):
`{model, messages, temperature, max_tokens, stream: False}`. -/
def baseKwargs (messages : List PyVal) (model : String) (max_tokens : Int)
    (temperature : Rat) : PyDict :=
  [("model", PyVal.str model),
   ("messages", PyVal.list messages),
   ("temperature", PyVal.float temperature),
   ("max_tokens", PyVal.int max_tokens),
   ("stream", PyVal.bool false)]

/-- The conditional `extra_body` assignment of `chat` (lines 76–83):
attach the NVIDIA thinking flag when `enable_thinking` holds and the
model identifier contains `"glm"` case-insensitively. -/
def addThinking (model : String) (enable_thinking : Bool) (kwargs : PyDict) :
    PyDict :=
  if enable_thinking && strIn "glm" model.toLower then
    dictSet kwargs "extra_body"
      (PyVal.dict
        [("chat_template_kwargs",
          PyVal.dict
            [("enable_thinking", PyVal.bool true),
             ("clear_thinking", PyVal.bool false)])])
  else kwargs

/-- The conditional `tools` / `tool_choice` assignments of `chat`
(lines 85–88): attach the tool schemas and automatic tool choice when a
truthy (non-`None`, non-empty) tools list is supplied. -/
def addTools (tools : Option (List PyVal)) (kwargs : PyDict) : PyDict :=
  match tools with
  | some ts =>
      if ts.isEmpty then kwargs
      else dictSet (dictSet kwargs "tools" (PyVal.list ts))
        "tool_choice" (PyVal.str "auto")
  | Option.none => kwargs

/-- The request-parameter construction of `chat` (lines 65–91): resolve
the model with `model = model or self.default_model` (so `None` and the
falsy empty string both fall back to the default), build the base
dictionary, conditionally attach the thinking flag and the tool
parameters, then merge the caller-supplied `extra_kwargs` last
(`kwargs.update(extra_kwargs)`). -/
def buildKwargs (messages : List PyVal) (tools : Option (List PyVal))
    (model : Option String) (max_tokens : Int) (temperature : Rat)
    (enable_thinking : Bool) (extra_kwargs : PyDict)
    (default_model : String) : PyDict :=
  let model := pyOptOrStr model default_model
  dictUpdate
    (addTools tools
      (addThinking model enable_thinking
        (baseKwargs messages model max_tokens temperature)))
    extra_kwargs

/-- Embedding of `OpenAIProvider.chat` (lines 40–100): build the request parameters,
issue the one network call (`net`, embedded as a function from the
outbound parameters to either an exception message or a vendor
response), parse the response, and convert any exception raised inside
the `try` block — network failure or parse failure — into an
error-shaped `LLMResponse`.  Totality of this function embeds the
"never raises past its boundary" contract. -/
def chat (decode : String → Option PyVal)
    (net : PyDict → Except String VendorResponse)
    (messages : List PyVal) (tools : Option (List PyVal))
    (model : Option String) (max_tokens : Int) (temperature : Rat)
    (enable_thinking : Bool) (extra_kwargs : PyDict)
    (default_model : String) : LLMResponse :=
  let kwargs := buildKwargs messages tools model max_tokens temperature
    enable_thinking extra_kwargs default_model
  match net kwargs with
  | Except.ok response =>
      match parse_response decode response with
      | Except.ok r => r
      | Except.error e =>
          { content := "Error calling LLM: " ++ e, finish_reason := "error" }
  | Except.error e =>
      { content := "Error calling LLM: " ++ e, finish_reason := "error" }

/-- Embedding of `OpenAIProvider.get_default_model` (lines 148–150). -/
def get_default_model (default_model : String) : String :=
  default_model

/-- Strip every choice's reasoning/thinking text from a vendor response,
leaving all other fields unchanged (used to state that normalization is
independent of the reasoning text). -/
def eraseReasoning (r : VendorResponse) : VendorResponse :=
  { r with
    choices := r.choices.map fun c =>
      { c with message := { c.message with reasoning_content := Option.none } } }

end OpenAIProvider

/-! ## Association-list (Python dict) lemmas -/

theorem dictGet_dictSet_self (d : PyDict) (k : String) (v : PyVal) :
    dictGet (dictSet d k v) k = some v := by
  induction d with
  | nil => simp [dictSet, dictGet]
  | cons p rest ih =>
      obtain ⟨k', v'⟩ := p
      by_cases h : k' = k
      · simp [dictSet, dictGet, h]
      · simp [dictSet, dictGet, h, ih]

theorem dictGet_dictSet_ne (d : PyDict) {k' k : String} (h : k' ≠ k) (v : PyVal) :
    dictGet (dictSet d k' v) k = dictGet d k := by
  induction d with
  | nil => simp [dictSet, dictGet, h]
  | cons p rest ih =>
      obtain ⟨k1, v1⟩ := p
      by_cases h1 : k1 = k'
      · subst h1; simp [dictSet, dictGet, h]
      · simp [dictSet, dictGet, h1, ih]

theorem dictGet_dictUpdate_none (e d : PyDict) (k : String)
    (h : dictGet e k = Option.none) :
    dictGet (dictUpdate d e) k = dictGet d k := by
  induction e generalizing d with
  | nil => rfl
  | cons p rest ih =>
      obtain ⟨k1, v1⟩ := p
      by_cases h1 : k1 = k
      · simp [dictGet, h1] at h
      · have h2 : dictGet rest k = Option.none := by
          simpa [dictGet, h1] using h
        show dictGet (dictUpdate (dictSet d k1 v1) rest) k = dictGet d k
        rw [ih _ h2, dictGet_dictSet_ne _ h1]

/-! ## Lookup lemmas for the request-building steps -/

theorem dictGet_addThinking_ne (model : String) (b : Bool) (kw : PyDict)
    {k : String} (h : k ≠ "extra_body") :
    dictGet (OpenAIProvider.addThinking model b kw) k = dictGet kw k := by
  unfold OpenAIProvider.addThinking
  split
  · rw [dictGet_dictSet_ne _ (Ne.symm h)]
  · rfl

theorem dictGet_addThinking_isSome (model : String) (b : Bool) (kw : PyDict)
    (h : dictGet kw "extra_body" = Option.none) :
    (dictGet (OpenAIProvider.addThinking model b kw) "extra_body").isSome
      = (b && strIn "glm" model.toLower) := by
  unfold OpenAIProvider.addThinking
  rcases Bool.eq_false_or_eq_true (b && strIn "glm" model.toLower) with hc | hc
  · simp [hc, dictGet_dictSet_self]
  · simp [hc, h]

theorem dictGet_addTools_ne (tools : Option (List PyVal)) (kw : PyDict)
    {k : String} (h1 : k ≠ "tools") (h2 : k ≠ "tool_choice") :
    dictGet (OpenAIProvider.addTools tools kw) k = dictGet kw k := by
  unfold OpenAIProvider.addTools
  cases tools with
  | none => rfl
  | some ts =>
      cases hts : ts.isEmpty with
      | true => simp [hts]
      | false =>
          simp only [hts, Bool.false_eq_true, if_false]
          rw [dictGet_dictSet_ne _ (Ne.symm h2), dictGet_dictSet_ne _ (Ne.symm h1)]

end Nanobot

namespace Nanobot

open OpenAIProvider

/-- C2: at construction time the API key is resolved as a pure function
of the configured string and the environment: a key of the shape
`"$" ++ name` resolves to the value of environment variable `name` when
it is set, and to the literal configured string when it is unset. -/
theorem resolveApiKey_env_indirection (env : String → Option String)
    (name v : String) :
    (env name = some v →
      resolveApiKey (some ("$" ++ name)) env = some v) ∧
    (env name = Option.none →
      resolveApiKey (some ("$" ++ name)) env = some ("$" ++ name)) := by
  have hdata : ("$" ++ name).data = '$' :: name.data := by
    rw [String.data_append]; rfl
  have hne : ¬(("$" ++ name) = "") := by
    intro h
    have h2 := congrArg String.data h
    rw [hdata] at h2
    simp at h2
  have hstarts : pyStartsWith ("$" ++ name) "$" = true := by
    unfold pyStartsWith
    rw [hdata]
    simp [List.isPrefixOf]
  have hdrop : ("$" ++ name).drop 1 = name := by
    apply String.ext
    rw [String.data_drop, hdata]
    rfl
  constructor
  · intro hset
    simp [resolveApiKey, hne, hstarts, hdrop, hset]
  · intro hunset
    simp [resolveApiKey, hne, hstarts, hdrop, hunset]

/-- Witness for `resolveApiKey_env_indirection`: `"$MY_KEY"` resolves to
`"abc123"` when `MY_KEY=abc123` is in the environment, and to the
literal `"$MY_KEY"` under the empty environment. -/
theorem resolveApiKey_env_indirection_witness :
    resolveApiKey (some "$MY_KEY")
        (fun n => if n = "MY_KEY" then some "abc123" else Option.none)
      = some "abc123" ∧
    resolveApiKey (some "$MY_KEY") (fun _ => Option.none)
      = some "$MY_KEY" :=
  ⟨(resolveApiKey_env_indirection
      (fun n => if n = "MY_KEY" then some "abc123" else Option.none)
      "MY_KEY" "abc123").1 (by simp),
   (resolveApiKey_env_indirection (fun _ => Option.none)
      "MY_KEY" "abc123").2 rfl⟩

/-- C1: `chat` is a total function into `LLMResponse` (so it never
raises past its boundary), and whenever the underlying network call
fails — for any input whatsoever — the returned response has
`finish_reason = "error"` and a `content` containing the substring
`"Error calling LLM:"`. -/
theorem chat_error_on_network_failure (decode : String → Option PyVal)
    (net : PyDict → Except String VendorResponse)
    (messages : List PyVal) (tools : Option (List PyVal))
    (model : Option String) (max_tokens : Int) (temperature : Rat)
    (enable_thinking : Bool) (extra_kwargs : PyDict)
    (default_model : String) (e : String)
    (h : net (buildKwargs messages tools model max_tokens temperature
        enable_thinking extra_kwargs default_model) = Except.error e) :
    (chat decode net messages tools model max_tokens temperature
        enable_thinking extra_kwargs default_model).finish_reason = "error" ∧
    ∃ pre post,
      (chat decode net messages tools model max_tokens temperature
          enable_thinking extra_kwargs default_model).content
        = pre ++ ("Error calling LLM:" ++ post) := by
  unfold chat
  simp only [h]
  refine ⟨trivial, "", " " ++ e, ?_⟩
  rw [String.empty_append, ← String.append_assoc]
  rfl

/-- Witness for `chat_error_on_network_failure`: a network call that
raises `"boom"` yields the error-shaped response. -/
theorem chat_error_on_network_failure_witness :
    (chat (fun _ => Option.none) (fun _ => Except.error "boom") []
        Option.none Option.none 16384 1 true [] "z-ai/glm4.7").finish_reason
      = "error" ∧
    ∃ pre post,
      (chat (fun _ => Option.none) (fun _ => Except.error "boom") []
          Option.none Option.none 16384 1 true [] "z-ai/glm4.7").content
        = pre ++ ("Error calling LLM:" ++ post) :=
  chat_error_on_network_failure (fun _ => Option.none)
    (fun _ => Except.error "boom") [] Option.none Option.none 16384 1 true []
    "z-ai/glm4.7" "boom" rfl

/-- C10: a vendor reply accepted by the network layer whose `choices`
list is empty makes the first-choice access fail inside the `try`
block, so `chat` converts it into the error-shaped response
(`finish_reason = "error"`, `content` starting with
`"Error calling LLM:"`) instead of raising. -/
theorem chat_error_on_empty_choices (decode : String → Option PyVal)
    (net : PyDict → Except String VendorResponse)
    (messages : List PyVal) (tools : Option (List PyVal))
    (model : Option String) (max_tokens : Int) (temperature : Rat)
    (enable_thinking : Bool) (extra_kwargs : PyDict)
    (default_model : String) (resp : VendorResponse)
    (hnet : net (buildKwargs messages tools model max_tokens temperature
        enable_thinking extra_kwargs default_model) = Except.ok resp)
    (hchoices : resp.choices = []) :
    (chat decode net messages tools model max_tokens temperature
        enable_thinking extra_kwargs default_model).finish_reason = "error" ∧
    ∃ post,
      (chat decode net messages tools model max_tokens temperature
          enable_thinking extra_kwargs default_model).content
        = "Error calling LLM:" ++ post := by
  unfold chat
  simp only [hnet, parse_response, hchoices]
  exact ⟨trivial, " list index out of range", rfl⟩

/-- Witness for `chat_error_on_empty_choices`: a successful network
call returning a response with no choices. -/
theorem chat_error_on_empty_choices_witness :
    (chat (fun _ => Option.none)
        (fun _ => Except.ok ⟨[], Option.none⟩) [] Option.none Option.none
        16384 1 true [] "z-ai/glm4.7").finish_reason = "error" ∧
    ∃ post,
      (chat (fun _ => Option.none)
          (fun _ => Except.ok ⟨[], Option.none⟩) [] Option.none Option.none
          16384 1 true [] "z-ai/glm4.7").content
        = "Error calling LLM:" ++ post :=
  chat_error_on_empty_choices (fun _ => Option.none)
    (fun _ => Except.ok ⟨[], Option.none⟩) [] Option.none Option.none
    16384 1 true [] "z-ai/glm4.7" ⟨[], Option.none⟩ rfl rfl

/-- C4: provided the caller-supplied extra parameters do not themselves
carry an `extra_body` key, the outbound request contains the
`extra_body` extended-reasoning flag exactly when `enable_thinking` is
true and the resolved model identifier — `model or default_model`, so
`None` and the empty string fall back to the default — contains `"glm"`
case-insensitively. -/
theorem buildKwargs_thinking_flag_iff (messages : List PyVal)
    (tools : Option (List PyVal)) (model : Option String) (max_tokens : Int)
    (temperature : Rat) (enable_thinking : Bool) (extra_kwargs : PyDict)
    (default_model : String)
    (h : dictGet extra_kwargs "extra_body" = Option.none) :
    (dictGet (buildKwargs messages tools model max_tokens temperature
        enable_thinking extra_kwargs default_model) "extra_body").isSome
      = (enable_thinking
          && strIn "glm" (pyOptOrStr model default_model).toLower) := by
  unfold buildKwargs
  rw [dictGet_dictUpdate_none _ _ _ h,
    dictGet_addTools_ne _ _ (by decide) (by decide)]
  exact dictGet_addThinking_isSome _ _ _ rfl

/-- Witness for `buildKwargs_thinking_flag_iff`: with no extra
parameters, a model containing `"glm"` gets the flag, `"gpt-4"` does
not, and an empty-string model falls back to a glm-containing
default. -/
theorem buildKwargs_thinking_flag_iff_witness :
    ((dictGet (buildKwargs [] Option.none (some "z-ai/glm4.7") 16384 1 true []
        "gpt-4") "extra_body").isSome
      = (true && strIn "glm" (pyOptOrStr (some "z-ai/glm4.7") "gpt-4").toLower)) ∧
    ((dictGet (buildKwargs [] Option.none (some "gpt-4") 16384 1 true []
        "z-ai/glm4.7") "extra_body").isSome
      = (true && strIn "glm" (pyOptOrStr (some "gpt-4") "z-ai/glm4.7").toLower)) ∧
    ((dictGet (buildKwargs [] Option.none (some "") 16384 1 true []
        "z-ai/glm4.7") "extra_body").isSome
      = (true && strIn "glm" (pyOptOrStr (some "") "z-ai/glm4.7").toLower)) :=
  ⟨buildKwargs_thinking_flag_iff [] Option.none (some "z-ai/glm4.7") 16384 1
      true [] "gpt-4" rfl,
   buildKwargs_thinking_flag_iff [] Option.none (some "gpt-4") 16384 1
      true [] "z-ai/glm4.7" rfl,
   buildKwargs_thinking_flag_iff [] Option.none (some "") 16384 1
      true [] "z-ai/glm4.7" rfl⟩

/-- C5: provided the caller-supplied extra parameters carry neither a
`tools` nor a `tool_choice` key, a non-empty supplied tools list appears
in the outbound request together with `tool_choice = "auto"`, while an
omitted (`None`) or empty tools list leaves both keys absent. -/
theorem buildKwargs_tools_params (messages : List PyVal)
    (tools : Option (List PyVal)) (model : Option String) (max_tokens : Int)
    (temperature : Rat) (enable_thinking : Bool) (extra_kwargs : PyDict)
    (default_model : String)
    (h1 : dictGet extra_kwargs "tools" = Option.none)
    (h2 : dictGet extra_kwargs "tool_choice" = Option.none) :
    (∀ ts, tools = some ts → ts ≠ [] →
      dictGet (buildKwargs messages tools model max_tokens temperature
          enable_thinking extra_kwargs default_model) "tools"
        = some (PyVal.list ts) ∧
      dictGet (buildKwargs messages tools model max_tokens temperature
          enable_thinking extra_kwargs default_model) "tool_choice"
        = some (PyVal.str "auto")) ∧
    ((tools = Option.none ∨ tools = some []) →
      dictGet (buildKwargs messages tools model max_tokens temperature
          enable_thinking extra_kwargs default_model) "tools"
        = Option.none ∧
      dictGet (buildKwargs messages tools model max_tokens temperature
          enable_thinking extra_kwargs default_model) "tool_choice"
        = Option.none) := by
  constructor
  · rintro ts rfl hts
    have hne : ts.isEmpty = false := by
      cases ts with
      | nil => exact absurd rfl hts
      | cons a l => rfl
    unfold buildKwargs OpenAIProvider.addTools
    constructor
    · rw [dictGet_dictUpdate_none _ _ _ h1]
      simp only [hne, Bool.false_eq_true, if_false]
      rw [dictGet_dictSet_ne _ (by decide), dictGet_dictSet_self]
    · rw [dictGet_dictUpdate_none _ _ _ h2]
      simp only [hne, Bool.false_eq_true, if_false]
      rw [dictGet_dictSet_self]
  · rintro (rfl | rfl)
    · constructor
      · unfold buildKwargs
        rw [dictGet_dictUpdate_none _ _ _ h1]
        simp only [OpenAIProvider.addTools]
        rw [dictGet_addThinking_ne _ _ _ (by decide)]
        rfl
      · unfold buildKwargs
        rw [dictGet_dictUpdate_none _ _ _ h2]
        simp only [OpenAIProvider.addTools]
        rw [dictGet_addThinking_ne _ _ _ (by decide)]
        rfl
    · constructor
      · unfold buildKwargs
        rw [dictGet_dictUpdate_none _ _ _ h1]
        simp only [OpenAIProvider.addTools, List.isEmpty_nil, if_true]
        rw [dictGet_addThinking_ne _ _ _ (by decide)]
        rfl
      · unfold buildKwargs
        rw [dictGet_dictUpdate_none _ _ _ h2]
        simp only [OpenAIProvider.addTools, List.isEmpty_nil, if_true]
        rw [dictGet_addThinking_ne _ _ _ (by decide)]
        rfl

/-- Witness for `buildKwargs_tools_params`: one non-empty tools list and
the omitted-tools call, with no extra parameters. -/
theorem buildKwargs_tools_params_witness :
    (dictGet (buildKwargs [] (some [PyVal.dict [("type", PyVal.str "function")]])
        Option.none 16384 1 true [] "gpt-4") "tools"
      = some (PyVal.list [PyVal.dict [("type", PyVal.str "function")]]) ∧
     dictGet (buildKwargs [] (some [PyVal.dict [("type", PyVal.str "function")]])
        Option.none 16384 1 true [] "gpt-4") "tool_choice"
      = some (PyVal.str "auto")) ∧
    (dictGet (buildKwargs [] Option.none Option.none 16384 1 true [] "gpt-4")
        "tools" = Option.none ∧
     dictGet (buildKwargs [] Option.none Option.none 16384 1 true [] "gpt-4")
        "tool_choice" = Option.none) :=
  ⟨(buildKwargs_tools_params [] (some [PyVal.dict [("type", PyVal.str "function")]])
      Option.none 16384 1 true [] "gpt-4" rfl rfl).1
      [PyVal.dict [("type", PyVal.str "function")]] rfl (by simp),
   (buildKwargs_tools_params [] Option.none Option.none 16384 1 true []
      "gpt-4" rfl rfl).2 (Or.inl rfl)⟩

/-- C8 counterexample: the caller-supplied extra parameters are merged
last and may override `stream`, so with `extra_kwargs = {"stream": True}`
the outbound request does not carry `stream = False`; this refutes the
claim that `stream` is `False` regardless of the extra parameters. -/
theorem buildKwargs_stream_override_cex :
    dictGet (buildKwargs [] Option.none Option.none 16384 1 false
        [("stream", PyVal.bool true)] "gpt-4") "stream"
      ≠ some (PyVal.bool false) := by
  intro hcontra
  have hval : dictGet (buildKwargs [] Option.none Option.none 16384 1 false
      [("stream", PyVal.bool true)] "gpt-4") "stream"
        = some (PyVal.bool true) := rfl
  rw [hval] at hcontra
  simp at hcontra

/-- C8 (amended): the outbound request carries `stream = False` whenever
the caller-supplied extra parameters do not themselves carry a `stream`
key; the final `kwargs.update(extra_kwargs)` may override it
otherwise. -/
theorem buildKwargs_stream_false (messages : List PyVal)
    (tools : Option (List PyVal)) (model : Option String) (max_tokens : Int)
    (temperature : Rat) (enable_thinking : Bool) (extra_kwargs : PyDict)
    (default_model : String)
    (h : dictGet extra_kwargs "stream" = Option.none) :
    dictGet (buildKwargs messages tools model max_tokens temperature
        enable_thinking extra_kwargs default_model) "stream"
      = some (PyVal.bool false) := by
  unfold buildKwargs
  rw [dictGet_dictUpdate_none _ _ _ h,
    dictGet_addTools_ne _ _ (by decide) (by decide),
    dictGet_addThinking_ne _ _ _ (by decide)]
  rfl

/-- Witness for `buildKwargs_stream_false`: a call with no extra
parameters requests a non-streaming response. -/
theorem buildKwargs_stream_false_witness :
    dictGet (buildKwargs [] Option.none Option.none 16384 1 true []
        "z-ai/glm4.7") "stream" = some (PyVal.bool false) :=
  buildKwargs_stream_false [] Option.none Option.none 16384 1 true []
    "z-ai/glm4.7" rfl

/-- C3: a tool call whose arguments payload is a string that the JSON
decoder rejects is normalized to the one-entry mapping
`{"raw": <original string>}`, with the call's id and name copied
verbatim, and parsing of the overall response still succeeds. -/
theorem parse_response_invalid_json_args (decode : String → Option PyVal)
    (r : VendorResponse) (c : VendorChoice) (cs : List VendorChoice)
    (hr : r.choices = c :: cs) (tcs : List VendorToolCall)
    (htc : c.message.tool_calls = some tcs) (i : Nat) (tc : VendorToolCall)
    (hi : tcs[i]? = some tc) (s : String)
    (hs : tc.function.arguments = PyVal.str s)
    (hdec : decode s = Option.none) :
    ∃ out, parse_response decode r = Except.ok out ∧
      out.tool_calls[i]? =
        some { id := tc.id, name := tc.function.name,
               arguments := PyVal.dict [("raw", PyVal.str s)] } := by
  simp only [parse_response, hr]
  refine ⟨_, rfl, ?_⟩
  simp only [htc]
  rw [List.getElem?_map, hi]
  simp [OpenAIProvider.normalizeArgs, hs, hdec]

/-- Witness for `parse_response_invalid_json_args`: a decoder that
rejects everything, applied to a single tool call with payload
`"not json"`. -/
theorem parse_response_invalid_json_args_witness :
    ∃ out,
      parse_response (fun _ => Option.none)
          ⟨[⟨⟨Option.none, Option.none,
              some [⟨"call_1", ⟨"get_weather", PyVal.str "not json"⟩⟩]⟩,
            some "tool_calls"⟩], Option.none⟩
        = Except.ok out ∧
      out.tool_calls[0]? =
        some { id := "call_1", name := "get_weather",
               arguments := PyVal.dict [("raw", PyVal.str "not json")] } :=
  parse_response_invalid_json_args (fun _ => Option.none)
    ⟨[⟨⟨Option.none, Option.none,
        some [⟨"call_1", ⟨"get_weather", PyVal.str "not json"⟩⟩]⟩,
      some "tool_calls"⟩], Option.none⟩
    ⟨⟨Option.none, Option.none,
        some [⟨"call_1", ⟨"get_weather", PyVal.str "not json"⟩⟩]⟩,
      some "tool_calls"⟩ [] rfl
    [⟨"call_1", ⟨"get_weather", PyVal.str "not json"⟩⟩] rfl 0
    ⟨"call_1", ⟨"get_weather", PyVal.str "not json"⟩⟩ rfl "not json" rfl rfl

/-- C6: missing optional vendor fields are defaulted rather than
errors — with a first choice present, parsing succeeds; an omitted
finish reason is normalized to `"stop"` and a missing usage block gives
an empty usage mapping. -/
theorem parse_response_defaults (decode : String → Option PyVal)
    (r : VendorResponse) (c : VendorChoice) (cs : List VendorChoice)
    (hr : r.choices = c :: cs) :
    ∃ out, parse_response decode r = Except.ok out ∧
      (c.finish_reason = Option.none → out.finish_reason = "stop") ∧
      (r.usage = Option.none → out.usage = []) := by
  simp only [parse_response, hr]
  refine ⟨_, rfl, ?_, ?_⟩
  · intro h
    simp [h, pyOptOrStr]
  · intro h
    simp [h]

/-- Witness for `parse_response_defaults`: a vendor response with one
choice, no finish reason and no usage block. -/
theorem parse_response_defaults_witness :
    ∃ out,
      parse_response (fun _ => Option.none)
          ⟨[⟨⟨some "hello", Option.none, Option.none⟩, Option.none⟩],
            Option.none⟩
        = Except.ok out ∧
      (Option.none = (Option.none : Option String) →
        out.finish_reason = "stop") ∧
      ((Option.none : Option VendorUsage) = Option.none → out.usage = []) :=
  parse_response_defaults (fun _ => Option.none)
    ⟨[⟨⟨some "hello", Option.none, Option.none⟩, Option.none⟩], Option.none⟩
    ⟨⟨some "hello", Option.none, Option.none⟩, Option.none⟩ [] rfl

/-- C7: a vendor usage block round-trips unchanged — the normalized
usage mapping is exactly the triple of the block's `prompt_tokens`,
`completion_tokens` and `total_tokens`. -/
theorem parse_response_usage_roundtrip (decode : String → Option PyVal)
    (r : VendorResponse) (c : VendorChoice) (cs : List VendorChoice)
    (u : VendorUsage) (hr : r.choices = c :: cs) (hu : r.usage = some u) :
    ∃ out, parse_response decode r = Except.ok out ∧
      out.usage =
        [("prompt_tokens", u.prompt_tokens),
         ("completion_tokens", u.completion_tokens),
         ("total_tokens", u.total_tokens)] := by
  simp only [parse_response, hr, hu]
  exact ⟨_, rfl, rfl⟩

/-- Witness for `parse_response_usage_roundtrip`: the usage block
`{prompt_tokens: 10, completion_tokens: 5, total_tokens: 15}`
round-trips unchanged. -/
theorem parse_response_usage_roundtrip_witness :
    ∃ out,
      parse_response (fun _ => Option.none)
          ⟨[⟨⟨some "hi", Option.none, Option.none⟩, some "stop"⟩],
            some ⟨10, 5, 15⟩⟩
        = Except.ok out ∧
      out.usage =
        [("prompt_tokens", (10 : Int)), ("completion_tokens", 5),
         ("total_tokens", 15)] :=
  parse_response_usage_roundtrip (fun _ => Option.none)
    ⟨[⟨⟨some "hi", Option.none, Option.none⟩, some "stop"⟩], some ⟨10, 5, 15⟩⟩
    ⟨⟨some "hi", Option.none, Option.none⟩, some "stop"⟩ [] ⟨10, 5, 15⟩ rfl rfl

/-- C9: normalization never depends on the vendor reasoning/thinking
text — two vendor responses that agree after erasing every choice's
`reasoning_content` field are parsed to equal `LLMResponse` values, so
no field of the normalized response can carry the reasoning text. -/
theorem parse_response_reasoning_independent (decode : String → Option PyVal)
    (r₁ r₂ : VendorResponse)
    (h : OpenAIProvider.eraseReasoning r₁ = OpenAIProvider.eraseReasoning r₂) :
    parse_response decode r₁ = parse_response decode r₂ := by
  have key : ∀ r : VendorResponse,
      parse_response decode (OpenAIProvider.eraseReasoning r)
        = parse_response decode r := by
    intro r
    cases hr : r.choices with
    | nil => simp [parse_response, OpenAIProvider.eraseReasoning, hr]
    | cons c cs => simp [parse_response, OpenAIProvider.eraseReasoning, hr]
  rw [← key r₁, ← key r₂, h]

/-- Witness for `parse_response_reasoning_independent`: two vendor
responses identical except that one carries reasoning text parse to the
same normalized response. -/
theorem parse_response_reasoning_independent_witness :
    parse_response (fun _ => Option.none)
        ⟨[⟨⟨some "answer", some "secret chain of thought", Option.none⟩,
          some "stop"⟩], Option.none⟩
      = parse_response (fun _ => Option.none)
        ⟨[⟨⟨some "answer", Option.none, Option.none⟩, some "stop"⟩],
          Option.none⟩ :=
  parse_response_reasoning_independent (fun _ => Option.none)
    ⟨[⟨⟨some "answer", some "secret chain of thought", Option.none⟩,
      some "stop"⟩], Option.none⟩
    ⟨[⟨⟨some "answer", Option.none, Option.none⟩, some "stop"⟩], Option.none⟩
    rfl

end Nanobot
